import Mathlib

/-!
# Verification of the routing and clearance-validation kernel

A shallow embedding, over the real numbers, of the geometry and validation
functions of the utility-network routing application (frontend `App.tsx`
geometry kernel, backend `distance-validator.ts` and `traces-service.ts`).

Modelling conventions:
* JavaScript `number` is modelled as `ℝ`.  `Math.sqrt` is `Real.sqrt`,
  `Math.cos` is `Real.cos`.  JavaScript division by zero produces
  `Infinity`/`NaN`; in the real model `x / 0 = 0`.  The places where this
  matters are noted at each definition.
* `Number.isFinite` cannot be expressed on `ℝ` (every real is finite), so the
  functions that consult it take the finiteness test as an explicit parameter
  `fin : ℝ → Bool`.  The interpretation matching genuine real inputs is
  `allFinite` (constantly `true`); an interpretation in which some value is
  non-finite (a NaN produced by the float program) is any other oracle.
* The `x || 1` idiom applied to a nonnegative float length is modelled as
  `if len = 0 then 1 else len`.
* The backend's violation messages are Russian format strings carrying the two
  system types, the measured distance and the required minimum; they are
  modelled as a structure with exactly those four fields (string formatting,
  e.g. `toFixed(2)`, is not modelled).
* Database access (`pool.query`) is modelled by explicit state passing: the
  `system_distances` table and the `traces` table are fields of `DBState`,
  and `createTrace` maps a state to a new state plus its response value.
-/

namespace PPV

/-- The six utility system types (`SystemType` in the source). -/
inductive SystemType where
  | water
  | sewerage
  | storm
  | heating
  | power
  | telecom
deriving DecidableEq, Repr

/-- A latitude/longitude pair in degrees (`Point` / `LatLng` in the source).
Also used for degree-space direction vectors, as in the source. -/
@[ext]
structure LatLng where
  lat : ℝ
  lng : ℝ

/-- A local metric offset (north, east) in meters (ephemeral, used inside the
geometry computations of `App.tsx`). -/
@[ext]
structure MeterVec where
  north : ℝ
  east : ℝ

/-- `METERS_PER_DEG_LAT` constant of the source. -/
def METERS_PER_DEG_LAT : ℝ := 111320

/-- `metersPerDegLng(lat)`: meters per degree of longitude at a latitude. -/
noncomputable def metersPerDegLng (lat : ℝ) : ℝ :=
  METERS_PER_DEG_LAT * Real.cos (lat * Real.pi / 180)

/-! ## Backend clearance validator (`distance-validator.ts`) -/

/-- `distancePointToSegment(point, segStart, segEnd)` of `distance-validator.ts`:
parametric projection of the point onto the segment, clamped through the
`param < 0` / `param > 1` branches, distance returned in meters. -/
noncomputable def distancePointToSegment (point segStart segEnd : LatLng) : ℝ :=
  let A := point.lat - segStart.lat
  let B := point.lng - segStart.lng
  let C := segEnd.lat - segStart.lat
  let D := segEnd.lng - segStart.lng
  let dot := A * C + B * D
  let lenSq := C * C + D * D
  let param := if lenSq ≠ 0 then dot / lenSq else -1
  let xx := if param < 0 then segStart.lat
            else if param > 1 then segEnd.lat
            else segStart.lat + param * C
  let yy := if param < 0 then segStart.lng
            else if param > 1 then segEnd.lng
            else segStart.lng + param * D
  let dx := point.lat - xx
  let dy := point.lng - yy
  let latDiff := dx * METERS_PER_DEG_LAT
  let lngDiff := dy * metersPerDegLng ((point.lat + xx) / 2)
  Real.sqrt (latDiff * latDiff + lngDiff * lngDiff)

/-- A row of the `system_distances` table: an unordered pair of system types
with a minimum separation in meters. -/
structure ClearanceRule where
  s1 : SystemType
  s2 : SystemType
  dist : ℝ

/-- `getMinDistance(system1, system2)`: the SQL symmetric lookup
`WHERE (s1 = $1 AND s2 = $2) OR (s1 = $2 AND s2 = $1)`, first matching row,
`0` when no row matches. -/
def getMinDistance (rules : List ClearanceRule) (a b : SystemType) : ℝ :=
  match rules.find? (fun r => (r.s1 == a && r.s2 == b) || (r.s1 == b && r.s2 == a)) with
  | some r => r.dist
  | none => 0

/-- The content of one violation message pushed by `validateTraceDistance`:
the two system types in attribution order, the measured distance and the
required minimum (the source interpolates exactly these into a string). -/
structure Violation where
  sysA : SystemType
  sysB : SystemType
  measured : ℝ
  required : ℝ

/-- A route as consumed by the validator: system type plus path. -/
structure TraceData where
  system : SystemType
  path : List LatLng

/-- Result record of `validateTraceDistance`. -/
structure ValidationResult where
  valid : Bool
  errors : List Violation

/-- The two inner loops of `validateTraceDistance` for one existing route:
for every candidate segment `i` and existing segment `j`, push a message when
the candidate segment's start point is closer than `d` to the existing
segment, and another when the existing segment's start point is closer than
`d` to the candidate segment. -/
noncomputable def segmentChecks (d : ℝ) (cs es : SystemType)
    (candPath existPath : List LatLng) : List Violation :=
  (List.range (candPath.length - 1)).flatMap fun i =>
    (List.range (existPath.length - 1)).flatMap fun j =>
      let segStart := candPath.getD i ⟨0, 0⟩
      let segEnd := candPath.getD (i + 1) ⟨0, 0⟩
      let exStart := existPath.getD j ⟨0, 0⟩
      let exEnd := existPath.getD (j + 1) ⟨0, 0⟩
      let dist1 := distancePointToSegment segStart exStart exEnd
      let dist2 := distancePointToSegment exStart segStart segEnd
      (if dist1 < d then [⟨cs, es, dist1, d⟩] else []) ++
      (if dist2 < d then [⟨es, cs, dist2, d⟩] else [])

/-- `validateTraceDistance(newTrace, existingTraces)`: skip existing routes of
the same system type, skip pairs whose looked-up minimum distance is `0`,
otherwise run the segment checks; `valid` is `errors.length === 0`. -/
noncomputable def validateTraceDistance (rules : List ClearanceRule)
    (newTrace : TraceData) (existingTraces : List TraceData) : ValidationResult :=
  let errors := existingTraces.flatMap fun ex =>
    if ex.system = newTrace.system then []
    else
      let minDistance := getMinDistance rules newTrace.system ex.system
      if minDistance = 0 then []
      else segmentChecks minDistance newTrace.system ex.system newTrace.path ex.path
  ⟨errors.length == 0, errors⟩

/-! ## Backend trace creation (`traces-service.ts` and the traces router) -/

/-- The columns of a stored trace that the clearance check and the claims
consult: owning project, system type, and the (nullable) path. -/
structure StoredTrace where
  project_id : ℕ
  system_type : SystemType
  path_points : Option (List LatLng)

/-- The persisted store visible to `createTrace`: the `traces` table and the
`system_distances` table. -/
structure DBState where
  rules : List ClearanceRule
  traces : List StoredTrace

/-- `createTrace`: inside one transaction, read the project's existing traces
(`path_points || []` for null paths), run `validateTraceDistance` when
`validateDistances` is set, then INSERT the new trace and COMMIT.  The insert
is not conditioned on the validation outcome; the response carries the
inserted trace together with the validation errors. -/
noncomputable def createTrace (st : DBState) (projectId : ℕ)
    (systemType : SystemType) (pathPoints : List LatLng)
    (validateDistances : Bool) : DBState × (StoredTrace × List Violation) :=
  let validationErrors :=
    if validateDistances then
      let existingTraces :=
        (st.traces.filter (fun t => t.project_id == projectId)).map
          (fun t => TraceData.mk t.system_type (t.path_points.getD []))
      (validateTraceDistance st.rules ⟨systemType, pathPoints⟩ existingTraces).errors
    else []
  let newTrace : StoredTrace := ⟨projectId, systemType, some pathPoints⟩
  (⟨st.rules, st.traces ++ [newTrace]⟩, (newTrace, validationErrors))

/-- The traces router `POST /`: call `createTrace`, answer HTTP 400
(`Distance validation failed`) when `validationErrors.length > 0`, else 200
with the trace.  Returns the updated store and the status code. -/
noncomputable def createTraceEndpoint (st : DBState) (projectId : ℕ)
    (systemType : SystemType) (pathPoints : List LatLng)
    (validateDistances : Bool) : DBState × ℕ :=
  let result := createTrace st projectId systemType pathPoints validateDistances
  (result.1, if 0 < result.2.2.length then 400 else 200)

/-! ## Frontend geometry kernel (`App.tsx`) -/

/-- `toMeterVec(v, latRef)`: degree-space vector to local meters. -/
noncomputable def toMeterVec (v : LatLng) (latRef : ℝ) : MeterVec :=
  ⟨v.lat * METERS_PER_DEG_LAT, v.lng * metersPerDegLng latRef⟩

/-- `toDegreeVec(v, latRef)`: local meters back to a degree-space vector. -/
noncomputable def toDegreeVec (v : MeterVec) (latRef : ℝ) : LatLng :=
  ⟨v.north / METERS_PER_DEG_LAT, v.east / metersPerDegLng latRef⟩

/-- `normalizeMeterVec(v)`: divide by `Math.sqrt(north² + east²) || 1`. -/
noncomputable def normalizeMeterVec (v : MeterVec) : MeterVec :=
  let len := Real.sqrt (v.north * v.north + v.east * v.east)
  let len := if len = 0 then 1 else len
  ⟨v.north / len, v.east / len⟩

/-- The finiteness oracle matching genuine real-valued inputs: every real
number is finite.  A float run in which some coordinate is NaN or infinite
corresponds to an oracle returning `false` there. -/
def allFinite : ℝ → Bool := fun _ => true

/-- `isFiniteLatLng(p)`: `Number.isFinite(p.lat) && Number.isFinite(p.lng)`,
with the finiteness test taken as the parameter `fin`. -/
def isFiniteLatLng (fin : ℝ → Bool) (p : LatLng) : Bool :=
  fin p.lat && fin p.lng

/-- `getAttachPerpMeters(system)`: the perpendicular standoff in meters,
`ATTACH_PERP_CUSTOM[system] ?? ATTACH_PERP_DEFAULT` — 3 m for sewerage,
5 m for every other system type. -/
def getAttachPerpMeters (system : SystemType) : ℝ :=
  match system with
  | .sewerage => 3
  | _ => 5

/-- `buildOrthogonalLocalPath(start, outwardNormalDeg, tangentDeg, end,
offsetMeters)`: the rectilinear path synthesizer.  Works in the meter frame at
`start.lat`; falls back to the two-segment elbow
`[start, {start.lat, end.lng}, end]` when a finiteness check fails. -/
noncomputable def buildOrthogonalLocalPath (fin : ℝ → Bool) (start : LatLng)
    (outwardNormalDeg tangentDeg : LatLng) (endP : LatLng)
    (offsetMeters : ℝ) : List LatLng :=
  if !(isFiniteLatLng fin start) || !(isFiniteLatLng fin endP) then
    [start, ⟨start.lat, endP.lng⟩, endP]
  else
    let latRef := start.lat
    let outwardNormalM := normalizeMeterVec (toMeterVec outwardNormalDeg latRef)
    let tUnitM := normalizeMeterVec (toMeterVec tangentDeg latRef)
    let nUnit0 := normalizeMeterVec ⟨-tUnitM.east, tUnitM.north⟩
    let dot := nUnit0.north * outwardNormalM.north + nUnit0.east * outwardNormalM.east
    let nUnitM := if dot < 0 then MeterVec.mk (-nUnit0.north) (-nUnit0.east) else nUnit0
    let offsetM : MeterVec := ⟨nUnitM.north * offsetMeters, nUnitM.east * offsetMeters⟩
    let offsetDeg := toDegreeVec offsetM latRef
    let p1 : LatLng := ⟨start.lat + offsetDeg.lat, start.lng + offsetDeg.lng⟩
    if !(isFiniteLatLng fin p1) then
      [start, ⟨start.lat, endP.lng⟩, endP]
    else
      let vecToEndM : MeterVec :=
        ⟨(endP.lat - p1.lat) * METERS_PER_DEG_LAT,
         (endP.lng - p1.lng) * metersPerDegLng ((endP.lat + p1.lat) / 2)⟩
      let tDist := vecToEndM.north * tUnitM.north + vecToEndM.east * tUnitM.east
      let nDist := vecToEndM.north * nUnitM.north + vecToEndM.east * nUnitM.east
      let p2 := toDegreeVec ⟨tUnitM.north * tDist, tUnitM.east * tDist⟩ latRef
      let p3 := toDegreeVec ⟨nUnitM.north * nDist, nUnitM.east * nDist⟩ latRef
      let mid : LatLng := ⟨p1.lat + p2.lat, p1.lng + p2.lng⟩
      let last : LatLng := ⟨mid.lat + p3.lat, mid.lng + p3.lng⟩
      if !(isFiniteLatLng fin mid) || !(isFiniteLatLng fin last) then
        [start, ⟨start.lat, endP.lng⟩, endP]
      else
        [start, p1, mid, last]

/-- `buildBranchPathAvoidBuilding(...)`: detour around the building's local
bounding box.  With no polygon (or an empty one) it delegates to
`buildOrthogonalLocalPath`; likewise on any failed finiteness check.  On a
nonempty polygon the JS min/max folds start from `±Infinity`; over a nonempty
list that equals folding from the first element, which is how the bounding
box is modelled here. -/
noncomputable def buildBranchPathAvoidBuilding (fin : ℝ → Bool) (start : LatLng)
    (outwardNormalDeg tangentDeg : LatLng) (endP : LatLng) (offsetMeters : ℝ)
    (buildingPolygon : Option (List LatLng)) : List LatLng :=
  match buildingPolygon with
  | none => buildOrthogonalLocalPath fin start outwardNormalDeg tangentDeg endP offsetMeters
  | some polygon =>
    if polygon.length = 0 then
      buildOrthogonalLocalPath fin start outwardNormalDeg tangentDeg endP offsetMeters
    else
      let latRef := start.lat
      let outwardNormalM := normalizeMeterVec (toMeterVec outwardNormalDeg latRef)
      let tUnitM := normalizeMeterVec (toMeterVec tangentDeg latRef)
      let p1Offset : MeterVec :=
        ⟨outwardNormalM.north * offsetMeters, outwardNormalM.east * offsetMeters⟩
      let p1Deg := toDegreeVec p1Offset latRef
      let p1 : LatLng := ⟨start.lat + p1Deg.lat, start.lng + p1Deg.lng⟩
      if !(isFiniteLatLng fin p1) then
        buildOrthogonalLocalPath fin start outwardNormalDeg tangentDeg endP offsetMeters
      else
        let refLatForMeters := (p1.lat + start.lat) / 2
        let polyMeters := polygon.map fun p =>
          toMeterVec ⟨p.lat - p1.lat, p.lng - p1.lng⟩ refLatForMeters
        let first := polyMeters.headD ⟨0, 0⟩
        let minNorth := polyMeters.foldl (fun a v => min a v.north) first.north
        let maxNorth := polyMeters.foldl (fun a v => max a v.north) first.north
        let minEast := polyMeters.foldl (fun a v => min a v.east) first.east
        let maxEast := polyMeters.foldl (fun a v => max a v.east) first.east
        let height := maxNorth - minNorth
        let width := maxEast - minEast
        let normalStep := max 0 (height / 2) + offsetMeters + 5
        let tangentStep := max 0 (width / 2) + 5
        let p2Deg := toDegreeVec
          ⟨outwardNormalM.north * normalStep, outwardNormalM.east * normalStep⟩ p1.lat
        let p2 : LatLng := ⟨p1.lat + p2Deg.lat, p1.lng + p2Deg.lng⟩
        if !(isFiniteLatLng fin p2) then
          buildOrthogonalLocalPath fin start outwardNormalDeg tangentDeg endP offsetMeters
        else
          let p3Deg := toDegreeVec
            ⟨tUnitM.north * tangentStep, tUnitM.east * tangentStep⟩ p2.lat
          let p3 : LatLng := ⟨p2.lat + p3Deg.lat, p2.lng + p3Deg.lng⟩
          if !(isFiniteLatLng fin p3) then
            buildOrthogonalLocalPath fin start outwardNormalDeg tangentDeg endP offsetMeters
          else
            [start, p1, p2, p3, endP]

/-! ## Attachment resolver (`App.tsx`) -/

/-- The fields of the frontend `Building` record that the resolver reads.
`lat`/`lng` arrive as finite numbers (`toNumber` with a fallback is the
identity on them); `width_meters`/`height_meters` may be null, in which case
`toNumber(value, 20)` yields the default 20. -/
structure Building where
  id : ℕ
  lat : ℝ
  lng : ℝ
  width_meters : Option ℝ
  height_meters : Option ℝ

/-- `getBuildingBounds(building)`: the axis-aligned rectangle derived from the
anchor and the footprint dimensions, as `[[south, west], [north, east]]`. -/
noncomputable def getBuildingBounds (b : Building) :
    (ℝ × ℝ) × (ℝ × ℝ) :=
  let lat := b.lat
  let lng := b.lng
  let width := b.width_meters.getD 20
  let height := b.height_meters.getD 20
  let latOffset := height / 2 / METERS_PER_DEG_LAT
  let lngOffset := width / 2 / metersPerDegLng lat
  ((lat - latOffset, lng - lngOffset), (lat + latOffset, lng + lngOffset))

/-- `getRectanglePolygon(bounds)`: the four corners SW, SE, NE, NW (the
source's null-guards on the tuple elements are dead code and resolved). -/
def getRectanglePolygon (bounds : (ℝ × ℝ) × (ℝ × ℝ)) : List LatLng :=
  let southWest := bounds.1
  let northEast := bounds.2
  [⟨southWest.1, southWest.2⟩, ⟨southWest.1, northEast.2⟩,
   ⟨northEast.1, northEast.2⟩, ⟨northEast.1, southWest.2⟩]

/-- `getBuildingPolygon(building, buildingFootprints)`: the explicit footprint
when it has at least 3 points, else the derived rectangle. -/
noncomputable def getBuildingPolygon (b : Building)
    (footprints : ℕ → Option (List LatLng)) : List LatLng :=
  match footprints b.id with
  | some fp => if 3 ≤ fp.length then fp else getRectanglePolygon (getBuildingBounds b)
  | none => getRectanglePolygon (getBuildingBounds b)

/-- `polygonCentroid(polygon)`: arithmetic mean of the vertices, `(0,0)` for an
empty polygon. -/
noncomputable def polygonCentroid (polygon : List LatLng) : LatLng :=
  if polygon.length = 0 then ⟨0, 0⟩
  else ⟨(polygon.map LatLng.lat).sum / polygon.length,
        (polygon.map LatLng.lng).sum / polygon.length⟩

/-- Result record of the frontend `projectPointToSegment`. -/
structure ProjResult where
  projection : LatLng
  distance : ℝ
  tangent : LatLng

/-- `projectPointToSegment(point, start, end)` of `App.tsx`: parametric
projection with `t` clamped into `[0,1]` (and `t = 0` on a degenerate
segment), distance in meters at the local midpoint latitude, unit tangent
with the `|| 1` guard on the segment length. -/
noncomputable def projectPointToSegment (point a b : LatLng) : ProjResult :=
  let ax := a.lng
  let ay := a.lat
  let bx := b.lng
  let by' := b.lat
  let px := point.lng
  let py := point.lat
  let dx := bx - ax
  let dy := by' - ay
  let lenSq := dx * dx + dy * dy
  let t := if 0 < lenSq then max 0 (min 1 (((px - ax) * dx + (py - ay) * dy) / lenSq)) else 0
  let projX := ax + t * dx
  let projY := ay + t * dy
  let latDiff := (py - projY) * METERS_PER_DEG_LAT
  let lngDiff := (px - projX) * metersPerDegLng ((py + projY) / 2)
  let distance := Real.sqrt (latDiff * latDiff + lngDiff * lngDiff)
  let len := Real.sqrt (dx * dx + dy * dy)
  let len := if len = 0 then 1 else len
  ⟨⟨projY, projX⟩, distance, ⟨dy / len, dx / len⟩⟩

/-- The resolved attachment returned by `findNearestBuildingProjection`. -/
structure Attachment where
  building : Building
  projection : LatLng
  outwardNormal : LatLng
  tangent : LatLng
  distance : ℝ

/-- The body of the edge loop of `findNearestBuildingProjection` for edge `i`
of a polygon: project the cursor, rotate the tangent into a normal, and orient
the normal outward against the centroid. -/
noncomputable def edgeCandidate (point : LatLng) (b : Building)
    (polygon : List LatLng) (centroid : LatLng) (i : ℕ) : Attachment :=
  let start := polygon.getD i ⟨0, 0⟩
  let endE := polygon.getD ((i + 1) % polygon.length) ⟨0, 0⟩
  let pr := projectPointToSegment point start endE
  let tangent := pr.tangent
  let normal : LatLng := ⟨-tangent.lng, tangent.lat⟩
  let fromCentroid : LatLng :=
    ⟨pr.projection.lat - centroid.lat, pr.projection.lng - centroid.lng⟩
  let dot := normal.lat * fromCentroid.lat + normal.lng * fromCentroid.lng
  let outwardNormal := if 0 ≤ dot then normal else LatLng.mk (-normal.lat) (-normal.lng)
  ⟨b, pr.projection, outwardNormal, tangent, pr.distance⟩

/-- The `best` accumulator update: keep the candidate when there is no best
yet or the candidate is strictly closer. -/
noncomputable def pickBetter (acc : Option Attachment) (c : Attachment) :
    Option Attachment :=
  match acc with
  | none => some c
  | some a => if c.distance < a.distance then some c else some a

/-- `findNearestBuildingProjection(point, buildings, buildingFootprints)`:
the globally closest edge projection across all buildings (polygons with
fewer than 2 points are skipped), or `null` when nothing was examined. -/
noncomputable def findNearestBuildingProjection (point : LatLng)
    (buildings : List Building) (footprints : ℕ → Option (List LatLng)) :
    Option Attachment :=
  buildings.foldl
    (fun acc b =>
      let polygon := getBuildingPolygon b footprints
      if polygon.length < 2 then acc
      else
        ((List.range polygon.length).map
            (edgeCandidate point b polygon (polygonCentroid polygon))).foldl
          pickBetter acc)
    none

/-- `findNearestBuildingProjectionWithin(...)`: the nearest projection when it
lies within `maxDistanceMeters` (inclusive), else `null`. -/
noncomputable def findNearestBuildingProjectionWithin (point : LatLng)
    (buildings : List Building) (footprints : ℕ → Option (List LatLng))
    (maxDistanceMeters : ℝ) : Option Attachment :=
  match findNearestBuildingProjection point buildings footprints with
  | some nearest =>
      if nearest.distance ≤ maxDistanceMeters then some nearest else none
  | none => none

/-! ## Dual-conductor offset generator (`buildOffsetPath` of `App.tsx`) -/

/-- The per-vertex averaged unit normal of `buildOffsetPath`: the incoming
segment's normal for the last vertex, the outgoing segment's normal for the
first vertex, and the renormalized average at interior vertices.  It does not
depend on the offset distance. -/
noncomputable def vertexNormal (path : List LatLng) (i : ℕ) : MeterVec :=
  let current := path.getD i ⟨0, 0⟩
  let prevNormalM : MeterVec :=
    if 0 < i then
      let prev := path.getD (i - 1) ⟨0, 0⟩
      let vecM := toMeterVec ⟨current.lat - prev.lat, current.lng - prev.lng⟩
        ((current.lat + prev.lat) / 2)
      let len := Real.sqrt (vecM.north * vecM.north + vecM.east * vecM.east)
      let len := if len = 0 then 1 else len
      ⟨vecM.east / len, -vecM.north / len⟩
    else ⟨0, 0⟩
  let nextNormalM : MeterVec :=
    if i < path.length - 1 then
      let next := path.getD (i + 1) ⟨0, 0⟩
      let vecM := toMeterVec ⟨next.lat - current.lat, next.lng - current.lng⟩
        ((current.lat + next.lat) / 2)
      let len := Real.sqrt (vecM.north * vecM.north + vecM.east * vecM.east)
      let len := if len = 0 then 1 else len
      ⟨vecM.east / len, -vecM.north / len⟩
    else ⟨0, 0⟩
  if i = 0 then nextNormalM
  else if i = path.length - 1 then prevNormalM
  else
    let avg : MeterVec := ⟨(prevNormalM.north + nextNormalM.north) / 2,
                           (prevNormalM.east + nextNormalM.east) / 2⟩
    let normLen := Real.sqrt (avg.north * avg.north + avg.east * avg.east)
    let normLen := if normLen = 0 then 1 else normLen
    ⟨avg.north / normLen, avg.east / normLen⟩

/-- The loop body of `buildOffsetPath` for vertex `i`: displace the vertex by
the averaged normal scaled by `offsetMeters`, converted to degrees at the
vertex's own latitude. -/
noncomputable def offsetVertex (path : List LatLng) (offsetMeters : ℝ) (i : ℕ) :
    LatLng :=
  let current := path.getD i ⟨0, 0⟩
  let normalM := vertexNormal path i
  let offsetDeg := toDegreeVec
    ⟨normalM.north * offsetMeters, normalM.east * offsetMeters⟩ current.lat
  ⟨current.lat + offsetDeg.lat, current.lng + offsetDeg.lng⟩

/-- `buildOffsetPath(path, offsetMeters)`: the input path unchanged when it is
shorter than 2 points or the offset is zero, else one displaced point per
input vertex.  (The source's `Number(...)` re-coercion of the coordinates is
the identity in the real model.) -/
noncomputable def buildOffsetPath (path : List LatLng) (offsetMeters : ℝ) :
    List LatLng :=
  if path.length < 2 ∨ offsetMeters = 0 then path
  else (List.range path.length).map (offsetVertex path offsetMeters)

/-! ## Specification-side definitions (for comparison with the code)

These definitions follow the wording of the specification, not the source,
and exist solely to state refinement claims against the embedded code. -/

/-- Twice the signed area of the triangle `p q r`; the standard orientation
test used to decide whether two segments intersect. -/
def orientation (p q r : LatLng) : ℝ :=
  (q.lat - p.lat) * (r.lng - p.lng) - (q.lng - p.lng) * (r.lat - p.lat)

/-- Segments `a1a2` and `b1b2` intersect: each segment's endpoints do not lie
strictly on one side of the other segment's line (a conservative rendering of
the spec's "intersecting segments", exact for non-collinear configurations). -/
def segmentsIntersect (a1 a2 b1 b2 : LatLng) : Prop :=
  orientation a1 a2 b1 * orientation a1 a2 b2 ≤ 0 ∧
  orientation b1 b2 a1 * orientation b1 b2 a2 ≤ 0

open Classical in
/-- Modelled from the spec: `segmentToSegmentDistance`, "minimum over the four
point-to-segment distances between each segment's endpoints and the other
segment", with "intersecting segments must yield distance 0". -/
noncomputable def segmentToSegmentDistance (a1 a2 b1 b2 : LatLng) : ℝ :=
  if segmentsIntersect a1 a2 b1 b2 then 0
  else
    min (min (distancePointToSegment a1 b1 b2) (distancePointToSegment a2 b1 b2))
        (min (distancePointToSegment b1 a1 a2) (distancePointToSegment b2 a1 a2))

/-- Modelled from the spec (claim C1): the number of pairs of one candidate
segment and one existing segment whose segment-to-segment distance is
strictly below the applicable rule distance, over all existing routes of a
different system type with a nonzero rule distance. -/
noncomputable def claimOffendingPairCount (rules : List ClearanceRule)
    (cand : TraceData) (existingTraces : List TraceData) : ℕ :=
  (existingTraces.map fun ex =>
    if ex.system = cand.system then 0
    else
      let d := getMinDistance rules cand.system ex.system
      if d = 0 then 0
      else
        ((List.range (cand.path.length - 1)).map fun i =>
          ((List.range (ex.path.length - 1)).map fun j =>
            if segmentToSegmentDistance
                 (cand.path.getD i ⟨0, 0⟩) (cand.path.getD (i + 1) ⟨0, 0⟩)
                 (ex.path.getD j ⟨0, 0⟩) (ex.path.getD (j + 1) ⟨0, 0⟩) < d
            then 1 else 0).sum).sum).sum

/-- The number of violation messages `validateTraceDistance` actually emits:
per candidate segment `i` and existing segment `j`, one message when the
candidate segment's start point is within `d` of the existing segment and one
when the existing segment's start point is within `d` of the candidate
segment. -/
noncomputable def emittedMessageCount (rules : List ClearanceRule)
    (cand : TraceData) (existingTraces : List TraceData) : ℕ :=
  (existingTraces.map fun ex =>
    if ex.system = cand.system then 0
    else
      let d := getMinDistance rules cand.system ex.system
      if d = 0 then 0
      else
        ((List.range (cand.path.length - 1)).map fun i =>
          ((List.range (ex.path.length - 1)).map fun j =>
            (if distancePointToSegment (cand.path.getD i ⟨0, 0⟩)
                 (ex.path.getD j ⟨0, 0⟩) (ex.path.getD (j + 1) ⟨0, 0⟩) < d
             then 1 else 0) +
            (if distancePointToSegment (ex.path.getD j ⟨0, 0⟩)
                 (cand.path.getD i ⟨0, 0⟩) (cand.path.getD (i + 1) ⟨0, 0⟩) < d
             then 1 else 0)).sum).sum).sum

/-! ## Proof-infrastructure definitions

Named components and concrete instances used to state and prove the claims.
-/

/-- The pointwise midpoint of two paths (used to state the reflection
property of the spec's §8). -/
noncomputable def pointwiseMidpoint (p q : List LatLng) : List LatLng :=
  List.zipWith (fun a b => LatLng.mk ((a.lat + b.lat) / 2) ((a.lng + b.lng) / 2)) p q

/-- A clearance matrix with a single rule: water/sewerage at 5 m (and in
particular no entry for the (power, telecom) pair). -/
def ruleWS : List ClearanceRule := [⟨SystemType.water, SystemType.sewerage, 5⟩]

/-- The flattened list of edge candidates examined by the resolver's nested
loops. -/
noncomputable def attachmentCandidates (point : LatLng) (buildings : List Building)
    (fps : ℕ → Option (List LatLng)) : List Attachment :=
  buildings.flatMap fun b =>
    let polygon := getBuildingPolygon b fps
    if polygon.length < 2 then []
    else (List.range polygon.length).map
      (edgeCandidate point b polygon (polygonCentroid polygon))

/-- The unit tangent `tUnitM` in the meter frame. -/
noncomputable def orthoTUnit (t : LatLng) (latRef : ℝ) : MeterVec :=
  normalizeMeterVec (toMeterVec t latRef)

/-- The corrected unit perpendicular `nUnitM`: the tangent rotated by 90°,
flipped when it disagrees with the supplied outward normal. -/
noncomputable def orthoNUnit (n t : LatLng) (latRef : ℝ) : MeterVec :=
  let outwardNormalM := normalizeMeterVec (toMeterVec n latRef)
  let tU := orthoTUnit t latRef
  let n0 := normalizeMeterVec ⟨-tU.east, tU.north⟩
  let dot := n0.north * outwardNormalM.north + n0.east * outwardNormalM.east
  if dot < 0 then ⟨-n0.north, -n0.east⟩ else n0

/-- The stub endpoint `p1`. -/
noncomputable def orthoP1 (s n t : LatLng) (off : ℝ) : LatLng :=
  let nU := orthoNUnit n t s.lat
  let offsetDeg := toDegreeVec ⟨nU.north * off, nU.east * off⟩ s.lat
  ⟨s.lat + offsetDeg.lat, s.lng + offsetDeg.lng⟩

/-- The tangential component `tDist` of the displacement from `p1` to the
destination. -/
noncomputable def orthoTDist (s n t e : LatLng) (off : ℝ) : ℝ :=
  let p1 := orthoP1 s n t off
  let tU := orthoTUnit t s.lat
  (e.lat - p1.lat) * METERS_PER_DEG_LAT * tU.north +
    (e.lng - p1.lng) * metersPerDegLng ((e.lat + p1.lat) / 2) * tU.east

/-- The normal component `nDist` of the displacement from `p1` to the
destination. -/
noncomputable def orthoNDist (s n t e : LatLng) (off : ℝ) : ℝ :=
  let p1 := orthoP1 s n t off
  let nU := orthoNUnit n t s.lat
  (e.lat - p1.lat) * METERS_PER_DEG_LAT * nU.north +
    (e.lng - p1.lng) * metersPerDegLng ((e.lat + p1.lat) / 2) * nU.east

/-- The third path point `mid = p1 + tangential step`. -/
noncomputable def orthoMid (s n t e : LatLng) (off : ℝ) : LatLng :=
  let p1 := orthoP1 s n t off
  let tU := orthoTUnit t s.lat
  let p2 := toDegreeVec
    ⟨tU.north * orthoTDist s n t e off, tU.east * orthoTDist s n t e off⟩ s.lat
  ⟨p1.lat + p2.lat, p1.lng + p2.lng⟩

/-- The last path point `mid + normal step`. -/
noncomputable def orthoLast (s n t e : LatLng) (off : ℝ) : LatLng :=
  let mid := orthoMid s n t e off
  let nU := orthoNUnit n t s.lat
  let p3 := toDegreeVec
    ⟨nU.north * orthoNDist s n t e off, nU.east * orthoNDist s n t e off⟩ s.lat
  ⟨mid.lat + p3.lat, mid.lng + p3.lng⟩

/-- The local meter-frame direction vector of the segment `a → b`. -/
noncomputable def meterDir (a b : LatLng) (latRef : ℝ) : MeterVec :=
  toMeterVec ⟨b.lat - a.lat, b.lng - a.lng⟩ latRef

/-- Dot product in the meter frame. -/
def mdot (u v : MeterVec) : ℝ := u.north * v.north + u.east * v.east

/-- Euclidean norm in the meter frame. -/
noncomputable def mnorm (v : MeterVec) : ℝ := Real.sqrt (v.north ^ 2 + v.east ^ 2)

/-- The demo store: the water/sewerage 5 m rule and one stored sewerage trace
in project 1 along `[(0,0), (0, 1/111320)]`. -/
noncomputable def demoState : DBState :=
  ⟨ruleWS, [⟨1, SystemType.sewerage, some [⟨0, 0⟩, ⟨0, 1 / 111320⟩]⟩]⟩

/-! ## Helper lemmas -/

lemma segmentChecks_cand_nil (d : ℝ) (cs es : SystemType) (ep : List LatLng) :
    segmentChecks d cs es [] ep = [] := by
  simp [segmentChecks]

lemma segmentChecks_cand_single (d : ℝ) (cs es : SystemType) (p : LatLng)
    (ep : List LatLng) : segmentChecks d cs es [p] ep = [] := by
  simp [segmentChecks]

lemma segmentChecks_exist_nil (d : ℝ) (cs es : SystemType) (cp : List LatLng) :
    segmentChecks d cs es cp [] = [] := by
  simp [segmentChecks]

lemma segmentChecks_exist_single (d : ℝ) (cs es : SystemType)
    (cp : List LatLng) (p : LatLng) : segmentChecks d cs es cp [p] = [] := by
  simp [segmentChecks]

/-! ## Claim C10 -/

/-- **C10.** For every candidate route and every list of existing routes, the
clearance validator's boolean result `valid` is `true` exactly when its
`errors` list is empty; and a candidate or existing path with fewer than two
points (shape `[]` or `[p]`) contributes no violations: a candidate with such
a path yields no errors at all, and an existing route with such a path can be
dropped from the list without changing the result. -/
theorem validateTraceDistance_valid_iff_no_errors :
    (∀ (rules : List ClearanceRule) (cand : TraceData) (ex : List TraceData),
      ((validateTraceDistance rules cand ex).valid = true ↔
        (validateTraceDistance rules cand ex).errors = [])) ∧
    (∀ (rules : List ClearanceRule) (sys : SystemType) (ex : List TraceData),
      (validateTraceDistance rules ⟨sys, []⟩ ex).errors = []) ∧
    (∀ (rules : List ClearanceRule) (sys : SystemType) (p : LatLng)
      (ex : List TraceData),
      (validateTraceDistance rules ⟨sys, [p]⟩ ex).errors = []) ∧
    (∀ (rules : List ClearanceRule) (cand : TraceData) (sys : SystemType)
      (rest : List TraceData),
      validateTraceDistance rules cand (⟨sys, []⟩ :: rest) =
        validateTraceDistance rules cand rest) ∧
    (∀ (rules : List ClearanceRule) (cand : TraceData) (sys : SystemType)
      (p : LatLng) (rest : List TraceData),
      validateTraceDistance rules cand (⟨sys, [p]⟩ :: rest) =
        validateTraceDistance rules cand rest) := by
  refine ⟨?_, ?_, ?_, ?_, ?_⟩
  · intro rules cand ex
    simp only [validateTraceDistance, beq_iff_eq, List.length_eq_zero]
  · intro rules sys ex
    simp [validateTraceDistance, List.flatMap_eq_nil_iff, segmentChecks_cand_nil]
  · intro rules sys p ex
    simp [validateTraceDistance, List.flatMap_eq_nil_iff, segmentChecks_cand_single]
  · intro rules cand sys rest
    simp [validateTraceDistance, List.flatMap_cons, segmentChecks_exist_nil]
  · intro rules cand sys p rest
    simp [validateTraceDistance, List.flatMap_cons, segmentChecks_exist_single]

/-! ## Claims C8 and C9: the offset generator -/

lemma pointwiseMidpoint_self (p : List LatLng) : pointwiseMidpoint p p = p := by
  induction p with
  | nil => rfl
  | cons a t ih =>
    simp only [pointwiseMidpoint, List.zipWith_cons_cons] at *
    refine congrArg₂ _ ?_ ih
    ext <;> ring

lemma buildOffsetPath_midpoint (path : List LatLng) (d : ℝ) :
    pointwiseMidpoint (buildOffsetPath path d) (buildOffsetPath path (-d)) = path := by
  by_cases h : path.length < 2 ∨ d = 0
  · have h2 : path.length < 2 ∨ -d = 0 := by
      rcases h with h | h
      · exact Or.inl h
      · exact Or.inr (by simp [h])
    simp only [buildOffsetPath, if_pos h, if_pos h2]
    exact pointwiseMidpoint_self path
  · have h2 : ¬(path.length < 2 ∨ -d = 0) := by
      simpa [neg_eq_zero] using h
    simp only [buildOffsetPath, if_neg h, if_neg h2]
    apply List.ext_getElem
    · simp [pointwiseMidpoint]
    · intro n h1 hn
      have hb : n < path.length := hn
      simp only [pointwiseMidpoint, List.getElem_zipWith, List.getElem_map,
        List.getElem_range, offsetVertex, toDegreeVec]
      rw [List.getD_eq_getElem _ _ hb]
      ext <;> · simp only; ring

/-- **C8.** `buildOffsetPath` returns a path with the same number of points as
its input, and returns the input unchanged when the offset is zero or the
path has fewer than two points. -/
theorem buildOffsetPath_preserves_length :
    (∀ (path : List LatLng) (d : ℝ),
      (buildOffsetPath path d).length = path.length) ∧
    (∀ (path : List LatLng) (d : ℝ),
      path.length < 2 ∨ d = 0 → buildOffsetPath path d = path) := by
  constructor
  · intro path d
    by_cases h : path.length < 2 ∨ d = 0
    · simp [buildOffsetPath, if_pos h]
    · simp [buildOffsetPath, if_neg h]
  · intro path d h
    simp [buildOffsetPath, if_pos h]

/-- Witness for C8: a single-point path is returned unchanged. -/
theorem buildOffsetPath_preserves_length_witness :
    (([LatLng.mk 0 0] : List LatLng).length < 2 ∨ (5 : ℝ) = 0) ∧
      buildOffsetPath [LatLng.mk 0 0] 5 = [LatLng.mk 0 0] :=
  ⟨Or.inl (by norm_num),
   buildOffsetPath_preserves_length.2 _ _ (Or.inl (by norm_num))⟩

/-- **C9.** For every path with at least two points and every nonzero offset
`d`, the paths offset by `d` and by `-d` are reflections of each other across
the original path: their pointwise midpoint is exactly the original path.
(Each vertex displacement is linear in `d` with a `d`-independent normal, so
this holds exactly in real arithmetic.) -/
theorem buildOffsetPath_reflection (path : List LatLng) (d : ℝ)
    (hlen : 2 ≤ path.length) (hd : d ≠ 0) :
    pointwiseMidpoint (buildOffsetPath path d) (buildOffsetPath path (-d)) = path :=
  buildOffsetPath_midpoint path d

/-- Witness for C9 at a concrete two-point path and offset 1. -/
theorem buildOffsetPath_reflection_witness :
    2 ≤ ([LatLng.mk 0 0, LatLng.mk 1 0] : List LatLng).length ∧ (1 : ℝ) ≠ 0 ∧
      pointwiseMidpoint (buildOffsetPath [LatLng.mk 0 0, LatLng.mk 1 0] 1)
        (buildOffsetPath [LatLng.mk 0 0, LatLng.mk 1 0] (-1)) =
        [LatLng.mk 0 0, LatLng.mk 1 0] :=
  ⟨by simp, by norm_num,
   buildOffsetPath_reflection _ 1 (by simp) (by norm_num)⟩

/-! ## Claim C7: path synthesis is total -/

lemma buildOrthogonalLocalPath_length (fin : ℝ → Bool) (start n t endP : LatLng)
    (off : ℝ) : 3 ≤ (buildOrthogonalLocalPath fin start n t endP off).length := by
  unfold buildOrthogonalLocalPath
  dsimp only
  split_ifs <;> simp

lemma buildBranchPathAvoidBuilding_length (fin : ℝ → Bool)
    (start n t endP : LatLng) (off : ℝ) (poly : Option (List LatLng)) :
    3 ≤ (buildBranchPathAvoidBuilding fin start n t endP off poly).length := by
  cases poly with
  | none => exact buildOrthogonalLocalPath_length fin start n t endP off
  | some polygon =>
    unfold buildBranchPathAvoidBuilding
    dsimp only
    split_ifs <;>
      first
        | exact buildOrthogonalLocalPath_length fin start n t endP off
        | simp

/-- **C7.** Path synthesis is total and never fails: for every input —
including any behaviour of the float finiteness test (`fin`), so in
particular for inputs whose coordinates are NaN, for zero-length vectors and
for empty building polygons — both the plain synthesizer and the
building-avoidance variant return a path of at least 3 points.  (Totality
itself is witnessed by these being Lean functions; no branch of either
function can raise.) -/
theorem pathSynthesis_total_min_three_points :
    (∀ (fin : ℝ → Bool) (start n t endP : LatLng) (off : ℝ),
      3 ≤ (buildOrthogonalLocalPath fin start n t endP off).length) ∧
    (∀ (fin : ℝ → Bool) (start n t endP : LatLng) (off : ℝ)
      (poly : Option (List LatLng)),
      3 ≤ (buildBranchPathAvoidBuilding fin start n t endP off poly).length) :=
  ⟨buildOrthogonalLocalPath_length, buildBranchPathAvoidBuilding_length⟩

/-! ## Claim C5: same-type and unconstrained pairs produce no violations -/

/-- **C5.** The clearance validator reports no violations against existing
routes of the candidate's own system type, nor against routes whose type pair
has no entry in the clearance matrix (the lookup yields 0, treated as "no
constraint"): whenever every existing route is of the same type or has a
zero looked-up distance, the violation list is empty. -/
theorem validateTraceDistance_skips_unconstrained (rules : List ClearanceRule)
    (cand : TraceData) (ex : List TraceData)
    (h : ∀ e ∈ ex, e.system = cand.system ∨
      getMinDistance rules cand.system e.system = 0) :
    (validateTraceDistance rules cand ex).errors = [] := by
  simp only [validateTraceDistance, List.flatMap_eq_nil_iff]
  intro x hx
  rcases h x hx with h1 | h1
  · rw [if_pos h1]
  · by_cases hc : x.system = cand.system
    · rw [if_pos hc]
    · rw [if_neg hc, if_pos h1]

/-- Witness for C5: with no clearance rule registered for (power, telecom), a
power candidate checked against a telecom route along the very same two
points yields no violations. -/
theorem validateTraceDistance_skips_unconstrained_witness :
    (∀ e ∈ [TraceData.mk SystemType.telecom [LatLng.mk 0 0, LatLng.mk 0 1]],
      e.system = SystemType.power ∨
        getMinDistance ruleWS SystemType.power e.system = 0) ∧
    (validateTraceDistance ruleWS
      ⟨SystemType.power, [LatLng.mk 0 0, LatLng.mk 0 1]⟩
      [TraceData.mk SystemType.telecom [LatLng.mk 0 0, LatLng.mk 0 1]]).errors = [] := by
  have h : ∀ e ∈ [TraceData.mk SystemType.telecom [LatLng.mk 0 0, LatLng.mk 0 1]],
      e.system = SystemType.power ∨
        getMinDistance ruleWS SystemType.power e.system = 0 := by
    intro e he
    simp only [List.mem_singleton] at he
    subst he
    exact Or.inr rfl
  exact ⟨h, validateTraceDistance_skips_unconstrained ruleWS _ _ h⟩

/-! ## Claim C6: the snap-radius boundary of the attachment resolver -/

lemma getBuildingPolygon_length (b : Building)
    (fps : ℕ → Option (List LatLng)) : 2 ≤ (getBuildingPolygon b fps).length := by
  unfold getBuildingPolygon
  cases fps b.id with
  | none => simp [getRectanglePolygon]
  | some fp =>
    dsimp only
    split
    · omega
    · simp [getRectanglePolygon]

lemma pickBetter_ne_none (acc : Option Attachment) (c : Attachment) :
    pickBetter acc c ≠ none := by
  cases acc with
  | none => simp [pickBetter]
  | some a =>
    simp only [pickBetter]
    split <;> simp

lemma foldl_pickBetter_eq_none_iff (l : List Attachment) (acc : Option Attachment) :
    l.foldl pickBetter acc = none ↔ acc = none ∧ l = [] := by
  induction l generalizing acc with
  | nil => simp
  | cons c t ih =>
    simp [List.foldl_cons, ih, pickBetter_ne_none]

lemma foldl_pickBetter_min (l : List Attachment) (acc : Option Attachment)
    (r : Attachment) (hr : l.foldl pickBetter acc = some r) :
    (∀ c ∈ l, r.distance ≤ c.distance) ∧
      (∀ a, acc = some a → r.distance ≤ a.distance) := by
  induction l generalizing acc with
  | nil =>
    simp only [List.foldl_nil] at hr
    refine ⟨by simp, ?_⟩
    intro a ha
    rw [hr] at ha
    cases ha
    exact le_refl _
  | cons c t ih =>
    simp only [List.foldl_cons] at hr
    obtain ⟨h1, h2⟩ := ih (pickBetter acc c) hr
    constructor
    · intro x hx
      rcases List.mem_cons.mp hx with rfl | hx
      · cases acc with
        | none => exact h2 x rfl
        | some a =>
          simp only [pickBetter] at h2
          by_cases hlt : x.distance < a.distance
          · exact h2 x (by rw [if_pos hlt])
          · have := h2 a (by rw [if_neg hlt])
            exact this.trans (not_lt.mp hlt)
      · exact h1 x hx
    · intro a ha
      cases acc with
      | none => cases ha
      | some a0 =>
        cases ha
        simp only [pickBetter] at h2
        by_cases hlt : c.distance < a.distance
        · exact (h2 c (by rw [if_pos hlt])).trans hlt.le
        · exact h2 a (by rw [if_neg hlt])

lemma foldl_pickBetter_mem (l : List Attachment) (acc : Option Attachment)
    (r : Attachment) (hr : l.foldl pickBetter acc = some r) :
    r ∈ l ∨ acc = some r := by
  induction l generalizing acc with
  | nil => exact Or.inr hr
  | cons c t ih =>
    simp only [List.foldl_cons] at hr
    rcases ih (pickBetter acc c) hr with h | h
    · exact Or.inl (List.mem_cons_of_mem _ h)
    · cases acc with
      | none =>
        simp only [pickBetter] at h
        cases h
        exact Or.inl (List.mem_cons_self _ _)
      | some a =>
        simp only [pickBetter] at h
        by_cases hlt : c.distance < a.distance
        · rw [if_pos hlt] at h
          cases h
          exact Or.inl (List.mem_cons_self _ _)
        · rw [if_neg hlt] at h
          exact Or.inr h

lemma findNearest_eq_foldl_aux (point : LatLng) (fps : ℕ → Option (List LatLng))
    (bs : List Building) (acc : Option Attachment) :
    bs.foldl
      (fun acc b =>
        let polygon := getBuildingPolygon b fps
        if polygon.length < 2 then acc
        else
          ((List.range polygon.length).map
              (edgeCandidate point b polygon (polygonCentroid polygon))).foldl
            pickBetter acc)
      acc =
    (bs.flatMap fun b =>
      let polygon := getBuildingPolygon b fps
      if polygon.length < 2 then []
      else (List.range polygon.length).map
        (edgeCandidate point b polygon (polygonCentroid polygon))).foldl
      pickBetter acc := by
  induction bs generalizing acc with
  | nil => rfl
  | cons b t ih =>
    simp only [List.foldl_cons, List.flatMap_cons, List.foldl_append]
    rw [← ih]
    by_cases h : (getBuildingPolygon b fps).length < 2 <;> simp [h]

lemma findNearest_eq_foldl (point : LatLng) (bs : List Building)
    (fps : ℕ → Option (List LatLng)) :
    findNearestBuildingProjection point bs fps =
      (attachmentCandidates point bs fps).foldl pickBetter none :=
  findNearest_eq_foldl_aux point fps bs none

lemma edgeCandidate_distance (point : LatLng) (b : Building)
    (polygon : List LatLng) (centroid : LatLng) (i : ℕ) :
    (edgeCandidate point b polygon centroid i).distance =
      (projectPointToSegment point (polygon.getD i ⟨0, 0⟩)
        (polygon.getD ((i + 1) % polygon.length) ⟨0, 0⟩)).distance := rfl

lemma mem_attachmentCandidates (point : LatLng) (bs : List Building)
    (fps : ℕ → Option (List LatLng)) (c : Attachment) :
    c ∈ attachmentCandidates point bs fps ↔
      ∃ b ∈ bs, ∃ i < (getBuildingPolygon b fps).length,
        edgeCandidate point b (getBuildingPolygon b fps)
          (polygonCentroid (getBuildingPolygon b fps)) i = c := by
  have hlen : ∀ b : Building, ¬((getBuildingPolygon b fps).length < 2) := by
    intro b
    have := getBuildingPolygon_length b fps
    omega
  simp [attachmentCandidates, List.mem_flatMap, hlen]

/-- **C6.** The building attachment resolver returns `none` on an empty
building list, and otherwise returns `some` attachment exactly when some
building wall edge projection lies at distance at most `maxSnapMeters` — the
boundary is inclusive.  (It is a total function: no input makes it throw.) -/
theorem findNearestWithin_isSome_iff :
    (∀ (point : LatLng) (fps : ℕ → Option (List LatLng)) (M : ℝ),
      findNearestBuildingProjectionWithin point [] fps M = none) ∧
    (∀ (point : LatLng) (bs : List Building) (fps : ℕ → Option (List LatLng))
      (M : ℝ),
      (findNearestBuildingProjectionWithin point bs fps M).isSome = true ↔
        ∃ b ∈ bs, ∃ i < (getBuildingPolygon b fps).length,
          (projectPointToSegment point
            ((getBuildingPolygon b fps).getD i ⟨0, 0⟩)
            ((getBuildingPolygon b fps).getD
              ((i + 1) % (getBuildingPolygon b fps).length) ⟨0, 0⟩)).distance
            ≤ M) := by
  constructor
  · intro point fps M
    rfl
  · intro point bs fps M
    unfold findNearestBuildingProjectionWithin
    rw [findNearest_eq_foldl]
    cases hfind : (attachmentCandidates point bs fps).foldl pickBetter none with
    | none =>
      simp only [Option.isSome_none, Bool.false_eq_true, false_iff]
      rintro ⟨b, hb, i, hi, hdist⟩
      have hc : edgeCandidate point b (getBuildingPolygon b fps)
          (polygonCentroid (getBuildingPolygon b fps)) i
            ∈ attachmentCandidates point bs fps :=
        (mem_attachmentCandidates point bs fps _).mpr ⟨b, hb, i, hi, rfl⟩
      have := (foldl_pickBetter_eq_none_iff _ _).mp hfind
      rw [this.2] at hc
      cases hc
    | some r =>
      dsimp only
      by_cases hr : r.distance ≤ M
      · rw [if_pos hr]
        simp only [Option.isSome_some, true_iff]
        rcases foldl_pickBetter_mem _ _ _ hfind with hmem | hacc
        · obtain ⟨b, hb, i, hi, hc⟩ := (mem_attachmentCandidates point bs fps r).mp hmem
          refine ⟨b, hb, i, hi, ?_⟩
          rw [← edgeCandidate_distance point b _ (polygonCentroid (getBuildingPolygon b fps)) i, hc]
          exact hr
        · cases hacc
      · rw [if_neg hr]
        simp only [Option.isSome_none, Bool.false_eq_true, false_iff]
        rintro ⟨b, hb, i, hi, hdist⟩
        have hc : edgeCandidate point b (getBuildingPolygon b fps)
            (polygonCentroid (getBuildingPolygon b fps)) i
              ∈ attachmentCandidates point bs fps :=
          (mem_attachmentCandidates point bs fps _).mpr ⟨b, hb, i, hi, rfl⟩
        have hmin := (foldl_pickBetter_min _ _ _ hfind).1 _ hc
        rw [edgeCandidate_distance] at hmin
        exact hr (hmin.trans hdist)

/-! ## Claim C4: degenerate inputs to the path synthesizer -/

lemma buildOrthogonalLocalPath_nonfinite (fin : ℝ → Bool) (s n t e : LatLng)
    (off : ℝ) (h : isFiniteLatLng fin s = false ∨ isFiniteLatLng fin e = false) :
    buildOrthogonalLocalPath fin s n t e off = [s, ⟨s.lat, e.lng⟩, e] := by
  unfold buildOrthogonalLocalPath
  rcases h with h | h <;> simp [h]

lemma buildOrthogonalLocalPath_zero_tangent (s n e : LatLng) (off : ℝ) :
    buildOrthogonalLocalPath allFinite s n ⟨0, 0⟩ e off = [s, s, s, s] := by
  unfold buildOrthogonalLocalPath
  simp [allFinite, isFiniteLatLng, toMeterVec, normalizeMeterVec, toDegreeVec]

/-- **C4, counterexample.** At finite coordinates with zero-length outward
normal and tangent vectors, the synthesizer does not return the two-segment
elbow `[start, {start.lat, end.lng}, end]`: it returns the collapsed
four-point path `[start, start, start, start]` (the `|| 1` guards keep every
intermediate value finite, so no fallback fires). -/
theorem buildOrthogonalLocalPath_zero_vectors_not_elbow :
    buildOrthogonalLocalPath allFinite ⟨0, 0⟩ ⟨0, 0⟩ ⟨0, 0⟩ ⟨1, 1⟩ 5 =
      [LatLng.mk 0 0, LatLng.mk 0 0, LatLng.mk 0 0, LatLng.mk 0 0] ∧
    buildOrthogonalLocalPath allFinite ⟨0, 0⟩ ⟨0, 0⟩ ⟨0, 0⟩ ⟨1, 1⟩ 5 ≠
      [LatLng.mk 0 0, LatLng.mk 0 1, LatLng.mk 1 1] := by
  have h := buildOrthogonalLocalPath_zero_tangent ⟨0, 0⟩ ⟨0, 0⟩ ⟨1, 1⟩ 5
  refine ⟨h, ?_⟩
  rw [h]
  simp

/-- **C4, amended.** Non-finite (NaN) coordinates in start or end do make the
synthesizer return the plain two-segment elbow `[start, {start.lat, end.lng},
end]`; but a zero-length tangent vector with finite coordinates does not —
it yields the collapsed four-point path `[start, start, start, start]`
(whatever the outward normal), because the `|| 1` normalization guards keep
all arithmetic finite and no fallback fires. -/
theorem buildOrthogonalLocalPath_degenerate_inputs :
    (∀ (fin : ℝ → Bool) (s n t e : LatLng) (off : ℝ),
      isFiniteLatLng fin s = false ∨ isFiniteLatLng fin e = false →
        buildOrthogonalLocalPath fin s n t e off = [s, ⟨s.lat, e.lng⟩, e]) ∧
    (∀ (s n e : LatLng) (off : ℝ),
      buildOrthogonalLocalPath allFinite s n ⟨0, 0⟩ e off = [s, s, s, s]) :=
  ⟨buildOrthogonalLocalPath_nonfinite, buildOrthogonalLocalPath_zero_tangent⟩

/-- Witness for the amended C4, with an oracle reporting the start coordinate
non-finite. -/
theorem buildOrthogonalLocalPath_degenerate_inputs_witness :
    (isFiniteLatLng (fun _ => false) ⟨0, 0⟩ = false ∨
      isFiniteLatLng (fun _ => false) ⟨1, 1⟩ = false) ∧
    buildOrthogonalLocalPath (fun _ => false) ⟨0, 0⟩ ⟨1, 0⟩ ⟨0, 1⟩ ⟨1, 1⟩ 5 =
      [⟨0, 0⟩, ⟨(0 : ℝ), (1 : ℝ)⟩, ⟨1, 1⟩] :=
  ⟨Or.inl rfl,
   buildOrthogonalLocalPath_degenerate_inputs.1 _ _ _ _ _ _ (Or.inl rfl)⟩

/-! ## Claim C3: the synthesized path shape

Named components of the main branch of `buildOrthogonalLocalPath`, used to
state and prove the shape properties.  Each is read off the corresponding
`let` of the source. -/

lemma buildOrthogonalLocalPath_allFinite_eq (s n t e : LatLng) (off : ℝ) :
    buildOrthogonalLocalPath allFinite s n t e off =
      [s, orthoP1 s n t off, orthoMid s n t e off, orthoLast s n t e off] := by
  unfold buildOrthogonalLocalPath orthoLast orthoMid orthoNDist orthoTDist orthoP1
    orthoNUnit orthoTUnit
  simp only [allFinite, isFiniteLatLng, Bool.and_self, Bool.not_true, Bool.or_self,
    Bool.false_eq_true, if_false]

lemma METERS_PER_DEG_LAT_ne : METERS_PER_DEG_LAT ≠ 0 := by
  norm_num [METERS_PER_DEG_LAT]

lemma metersPerDegLng_ne (lat : ℝ) (h : Real.cos (lat * Real.pi / 180) ≠ 0) :
    metersPerDegLng lat ≠ 0 :=
  mul_ne_zero METERS_PER_DEG_LAT_ne h

lemma meterDir_add (a d : LatLng) (latRef : ℝ) :
    meterDir a ⟨a.lat + d.lat, a.lng + d.lng⟩ latRef = toMeterVec d latRef := by
  unfold meterDir toMeterVec
  ext <;> · dsimp only; ring

lemma toMeterVec_toDegreeVec (v : MeterVec) (latRef : ℝ)
    (h : metersPerDegLng latRef ≠ 0) :
    toMeterVec (toDegreeVec v latRef) latRef = v := by
  unfold toMeterVec toDegreeVec
  ext
  · dsimp only
    rw [div_mul_cancel₀ _ METERS_PER_DEG_LAT_ne]
  · dsimp only
    rw [div_mul_cancel₀ _ h]

lemma normalizeMeterVec_unit (v : MeterVec) (hv : ¬(v.north = 0 ∧ v.east = 0)) :
    (normalizeMeterVec v).north ^ 2 + (normalizeMeterVec v).east ^ 2 = 1 := by
  have hS : 0 < v.north * v.north + v.east * v.east := by
    rcases not_and_or.mp hv with h | h
    · have h1 := mul_self_pos.mpr h
      nlinarith [mul_self_nonneg v.east]
    · have h1 := mul_self_pos.mpr h
      nlinarith [mul_self_nonneg v.north]
  have hlen : Real.sqrt (v.north * v.north + v.east * v.east) ≠ 0 := by
    rw [← Real.sqrt_zero]
    exact ne_of_gt (Real.sqrt_lt_sqrt (le_refl 0) hS)
  have hL2 : Real.sqrt (v.north * v.north + v.east * v.east) ^ 2 =
      v.north * v.north + v.east * v.east := Real.sq_sqrt hS.le
  unfold normalizeMeterVec
  dsimp only
  rw [if_neg hlen]
  field_simp
  linarith [hL2]

lemma toMeterVec_tangent_ne (t : LatLng) (latRef : ℝ) (ht : t ≠ ⟨0, 0⟩)
    (hcos : Real.cos (latRef * Real.pi / 180) ≠ 0) :
    ¬((toMeterVec t latRef).north = 0 ∧ (toMeterVec t latRef).east = 0) := by
  rintro ⟨h1, h2⟩
  apply ht
  unfold toMeterVec at h1 h2
  dsimp only at h1 h2
  have hml := metersPerDegLng_ne latRef hcos
  ext
  · exact (mul_eq_zero.mp h1).resolve_right METERS_PER_DEG_LAT_ne
  · exact (mul_eq_zero.mp h2).resolve_right hml

lemma orthoTUnit_unit (t : LatLng) (latRef : ℝ)
    (h : ¬((toMeterVec t latRef).north = 0 ∧ (toMeterVec t latRef).east = 0)) :
    (orthoTUnit t latRef).north ^ 2 + (orthoTUnit t latRef).east ^ 2 = 1 :=
  normalizeMeterVec_unit _ h

lemma orthoNUnit_unit (n t : LatLng) (latRef : ℝ)
    (h : ¬((toMeterVec t latRef).north = 0 ∧ (toMeterVec t latRef).east = 0)) :
    (orthoNUnit n t latRef).north ^ 2 + (orthoNUnit n t latRef).east ^ 2 = 1 := by
  have htU := orthoTUnit_unit t latRef h
  have hrot : ¬((MeterVec.mk (-(orthoTUnit t latRef).east)
      (orthoTUnit t latRef).north).north = 0 ∧
      (MeterVec.mk (-(orthoTUnit t latRef).east)
        (orthoTUnit t latRef).north).east = 0) := by
    rintro ⟨h1, h2⟩
    dsimp only at h1 h2
    rw [neg_eq_zero] at h1
    rw [h1, h2] at htU
    norm_num at htU
  have hn0 := normalizeMeterVec_unit _ hrot
  unfold orthoNUnit
  dsimp only
  split
  · dsimp only
    rw [neg_pow, neg_pow]
    simpa using hn0
  · exact hn0

lemma orthoNUnit_perp_tUnit (n t : LatLng) (latRef : ℝ) :
    (orthoNUnit n t latRef).north * (orthoTUnit t latRef).north +
      (orthoNUnit n t latRef).east * (orthoTUnit t latRef).east = 0 := by
  unfold orthoNUnit normalizeMeterVec
  dsimp only
  split_ifs <;> (try dsimp only) <;> ring

lemma orthoNUnit_perp_meter (n t : LatLng) (latRef : ℝ) :
    (orthoNUnit n t latRef).north * (toMeterVec t latRef).north +
      (orthoNUnit n t latRef).east * (toMeterVec t latRef).east = 0 := by
  unfold orthoNUnit orthoTUnit normalizeMeterVec
  dsimp only
  split_ifs <;> (try dsimp only) <;> ring

lemma meterDir_s_p1 (s n t : LatLng) (off : ℝ) (h : metersPerDegLng s.lat ≠ 0) :
    meterDir s (orthoP1 s n t off) s.lat =
      ⟨(orthoNUnit n t s.lat).north * off, (orthoNUnit n t s.lat).east * off⟩ := by
  unfold orthoP1
  dsimp only
  rw [meterDir_add, toMeterVec_toDegreeVec _ _ h]

lemma meterDir_p1_mid (s n t e : LatLng) (off : ℝ)
    (h : metersPerDegLng s.lat ≠ 0) :
    meterDir (orthoP1 s n t off) (orthoMid s n t e off) s.lat =
      ⟨(orthoTUnit t s.lat).north * orthoTDist s n t e off,
       (orthoTUnit t s.lat).east * orthoTDist s n t e off⟩ := by
  unfold orthoMid
  dsimp only
  rw [meterDir_add, toMeterVec_toDegreeVec _ _ h]

lemma meterDir_mid_last (s n t e : LatLng) (off : ℝ)
    (h : metersPerDegLng s.lat ≠ 0) :
    meterDir (orthoMid s n t e off) (orthoLast s n t e off) s.lat =
      ⟨(orthoNUnit n t s.lat).north * orthoNDist s n t e off,
       (orthoNUnit n t s.lat).east * orthoNDist s n t e off⟩ := by
  unfold orthoLast
  dsimp only
  rw [meterDir_add, toMeterVec_toDegreeVec _ _ h]

/-- **C3.** For every attachment with (finite) real coordinates and a nonzero
tangent — at a latitude where the longitude scale does not vanish, which is
everywhere the float code can run — the synthesizer at the per-system standoff
returns a 4-point path `[start, p1, mid, last]` in which the first segment is
a perpendicular stub whose meter length equals the standoff (5 m for every
system type except sewerage's 3 m), the stub is perpendicular to the wall
tangent, and consecutive segment direction vectors in the local meter frame
have dot product 0 (every turn is 90°). -/
theorem buildOrthogonalLocalPath_stub_and_right_angles
    (start n t endP : LatLng) (sys : SystemType)
    (ht : t ≠ ⟨0, 0⟩) (hcos : Real.cos (start.lat * Real.pi / 180) ≠ 0) :
    (∃ p1 q r, buildOrthogonalLocalPath allFinite start n t endP
        (getAttachPerpMeters sys) = [start, p1, q, r] ∧
      mnorm (meterDir start p1 start.lat) = getAttachPerpMeters sys ∧
      mdot (meterDir start p1 start.lat) (toMeterVec t start.lat) = 0 ∧
      mdot (meterDir start p1 start.lat) (meterDir p1 q start.lat) = 0 ∧
      mdot (meterDir p1 q start.lat) (meterDir q r start.lat) = 0) ∧
    getAttachPerpMeters SystemType.sewerage = 3 ∧
    (∀ s : SystemType, s = SystemType.sewerage ∨ getAttachPerpMeters s = 5) := by
  have hml := metersPerDegLng_ne start.lat hcos
  have htm := toMeterVec_tangent_ne t start.lat ht hcos
  have hunit := orthoNUnit_unit n t start.lat htm
  have hperpT := orthoNUnit_perp_tUnit n t start.lat
  have hperpM := orthoNUnit_perp_meter n t start.lat
  have hoffpos : 0 ≤ getAttachPerpMeters sys := by
    cases sys <;> norm_num [getAttachPerpMeters]
  refine ⟨⟨orthoP1 start n t (getAttachPerpMeters sys),
    orthoMid start n t endP (getAttachPerpMeters sys),
    orthoLast start n t endP (getAttachPerpMeters sys),
    buildOrthogonalLocalPath_allFinite_eq start n t endP (getAttachPerpMeters sys),
    ?_, ?_, ?_, ?_⟩, rfl, ?_⟩
  · rw [meterDir_s_p1 start n t _ hml]
    unfold mnorm
    dsimp only
    rw [show ((orthoNUnit n t start.lat).north * getAttachPerpMeters sys) ^ 2 +
        ((orthoNUnit n t start.lat).east * getAttachPerpMeters sys) ^ 2 =
        getAttachPerpMeters sys ^ 2 by
      calc ((orthoNUnit n t start.lat).north * getAttachPerpMeters sys) ^ 2 +
            ((orthoNUnit n t start.lat).east * getAttachPerpMeters sys) ^ 2 =
          getAttachPerpMeters sys ^ 2 *
            ((orthoNUnit n t start.lat).north ^ 2 +
              (orthoNUnit n t start.lat).east ^ 2) := by ring
        _ = getAttachPerpMeters sys ^ 2 := by rw [hunit, mul_one]]
    exact Real.sqrt_sq hoffpos
  · rw [meterDir_s_p1 start n t _ hml]
    unfold mdot
    dsimp only
    linear_combination getAttachPerpMeters sys * hperpM
  · rw [meterDir_s_p1 start n t _ hml, meterDir_p1_mid start n t endP _ hml]
    unfold mdot
    dsimp only
    linear_combination
      (getAttachPerpMeters sys * orthoTDist start n t endP (getAttachPerpMeters sys)) * hperpT
  · rw [meterDir_p1_mid start n t endP _ hml, meterDir_mid_last start n t endP _ hml]
    unfold mdot
    dsimp only
    linear_combination
      (orthoTDist start n t endP (getAttachPerpMeters sys) *
        orthoNDist start n t endP (getAttachPerpMeters sys)) * hperpT
  · intro s
    cases s <;> simp [getAttachPerpMeters]

/-- Witness for C3 at the origin with an eastward tangent and a northward
outward normal, for the water system (standoff 5 m). -/
theorem buildOrthogonalLocalPath_stub_and_right_angles_witness :
    ((⟨0, 1⟩ : LatLng) ≠ ⟨0, 0⟩) ∧
    Real.cos ((0 : ℝ) * Real.pi / 180) ≠ 0 ∧
    ((∃ p1 q r, buildOrthogonalLocalPath allFinite ⟨0, 0⟩ ⟨1, 0⟩ ⟨0, 1⟩ ⟨1, 1⟩
        (getAttachPerpMeters SystemType.water) = [⟨0, 0⟩, p1, q, r] ∧
      mnorm (meterDir ⟨0, 0⟩ p1 (0 : ℝ)) = getAttachPerpMeters SystemType.water ∧
      mdot (meterDir ⟨0, 0⟩ p1 (0 : ℝ)) (toMeterVec ⟨0, 1⟩ (0 : ℝ)) = 0 ∧
      mdot (meterDir ⟨0, 0⟩ p1 (0 : ℝ)) (meterDir p1 q (0 : ℝ)) = 0 ∧
      mdot (meterDir p1 q (0 : ℝ)) (meterDir q r (0 : ℝ)) = 0) ∧
    getAttachPerpMeters SystemType.sewerage = 3 ∧
    (∀ s : SystemType, s = SystemType.sewerage ∨ getAttachPerpMeters s = 5)) := by
  have h1 : (⟨0, 1⟩ : LatLng) ≠ ⟨0, 0⟩ := by
    intro h
    have := congrArg LatLng.lng h
    norm_num at this
  have h2 : Real.cos ((0 : ℝ) * Real.pi / 180) ≠ 0 := by
    norm_num
  exact ⟨h1, h2,
    buildOrthogonalLocalPath_stub_and_right_angles ⟨0, 0⟩ ⟨1, 0⟩ ⟨0, 1⟩ ⟨1, 1⟩
      SystemType.water h1 h2⟩

/-! ## Claim C1: which messages the validator emits -/

lemma segmentChecks_length (d : ℝ) (cs es : SystemType)
    (cp ep : List LatLng) :
    (segmentChecks d cs es cp ep).length =
      ((List.range (cp.length - 1)).map fun i =>
        ((List.range (ep.length - 1)).map fun j =>
          (if distancePointToSegment (cp.getD i ⟨0, 0⟩) (ep.getD j ⟨0, 0⟩)
              (ep.getD (j + 1) ⟨0, 0⟩) < d then 1 else 0) +
          (if distancePointToSegment (ep.getD j ⟨0, 0⟩) (cp.getD i ⟨0, 0⟩)
              (cp.getD (i + 1) ⟨0, 0⟩) < d then 1 else 0)).sum).sum := by
  unfold segmentChecks
  rw [List.length_flatMap]
  congr 1
  apply List.map_congr_left
  intro i _
  dsimp only [Function.comp]
  rw [List.length_flatMap]
  congr 1
  apply List.map_congr_left
  intro j _
  dsimp only [Function.comp]
  rw [List.length_append, apply_ite List.length, apply_ite List.length]
  simp

/-- **C1, amended.** The violation list's length equals the number of failing
start-point checks: for each existing route of a different system type with a
nonzero rule distance `d`, and for each pair of a candidate segment `i` and an
existing segment `j`, one message when the candidate segment's *start point*
lies strictly closer than `d` to the existing segment, plus one message when
the existing segment's *start point* lies strictly closer than `d` to the
candidate segment.  (A pair may thus yield zero, one, or two messages, and
closeness only at the segments' far endpoints goes unreported; the code does
not compute the spec's four-distance segment-to-segment minimum.) -/
theorem validateTraceDistance_message_count (rules : List ClearanceRule)
    (cand : TraceData) (ex : List TraceData) :
    (validateTraceDistance rules cand ex).errors.length =
      emittedMessageCount rules cand ex := by
  unfold validateTraceDistance emittedMessageCount
  dsimp only
  rw [List.length_flatMap]
  congr 1
  apply List.map_congr_left
  intro e _
  dsimp only [Function.comp]
  by_cases h1 : e.system = cand.system
  · rw [if_pos h1, if_pos h1]
    rfl
  · rw [if_neg h1, if_neg h1]
    by_cases h2 : getMinDistance rules cand.system e.system = 0
    · rw [if_pos h2, if_pos h2]
      rfl
    · rw [if_neg h2, if_neg h2]
      exact segmentChecks_length _ _ _ _ _

/-! ### A concrete scenario: two parallel one-meter segments 3 m apart

Candidate (water): from `(3/111320, 0)` to `(3/111320, 1/111320)` degrees —
a segment 3 m north of the existing sewerage segment from `(0, 0)` to
`(0, 1/111320)`.  Every relevant point-to-segment distance is exactly 3 m
(the longitude differences vanish, so no cosine needs evaluating). -/

lemma sqrt_nine : Real.sqrt 9 = 3 := by
  rw [show (9 : ℝ) = 3 ^ 2 by norm_num]
  exact Real.sqrt_sq (by norm_num)

lemma distEval1 :
    distancePointToSegment ⟨3 / 111320, 0⟩ ⟨0, 0⟩ ⟨0, 1 / 111320⟩ = 3 := by
  unfold distancePointToSegment METERS_PER_DEG_LAT
  norm_num
  exact sqrt_nine

lemma distEval2 :
    distancePointToSegment ⟨0, 0⟩ ⟨3 / 111320, 0⟩ ⟨3 / 111320, 1 / 111320⟩ = 3 := by
  unfold distancePointToSegment METERS_PER_DEG_LAT
  norm_num
  exact sqrt_nine

lemma distEval3 :
    distancePointToSegment ⟨3 / 111320, 1 / 111320⟩ ⟨0, 0⟩ ⟨0, 1 / 111320⟩ = 3 := by
  unfold distancePointToSegment METERS_PER_DEG_LAT
  norm_num
  exact sqrt_nine

lemma distEval4 :
    distancePointToSegment ⟨0, 1 / 111320⟩ ⟨3 / 111320, 0⟩ ⟨3 / 111320, 1 / 111320⟩ = 3 := by
  unfold distancePointToSegment METERS_PER_DEG_LAT
  norm_num
  exact sqrt_nine

lemma getMinDistance_ruleWS :
    getMinDistance ruleWS SystemType.water SystemType.sewerage = 5 := rfl

lemma demo_errors_length :
    (validateTraceDistance ruleWS
        ⟨SystemType.water, [⟨3 / 111320, 0⟩, ⟨3 / 111320, 1 / 111320⟩]⟩
        [⟨SystemType.sewerage, [⟨0, 0⟩, ⟨0, 1 / 111320⟩]⟩]).errors.length = 2 := by
  unfold validateTraceDistance
  dsimp only
  rw [List.flatMap_cons, List.flatMap_nil, List.append_nil]
  rw [if_neg (by decide : ¬(SystemType.sewerage = SystemType.water))]
  rw [getMinDistance_ruleWS]
  rw [if_neg (by norm_num : ¬(5 : ℝ) = 0)]
  unfold segmentChecks
  simp only [List.length_cons, List.length_nil, List.getD_cons_zero,
    List.getD_cons_succ, Nat.add_sub_cancel, Nat.zero_add]
  rw [show List.range 1 = [0] from rfl]
  simp only [List.flatMap_cons, List.flatMap_nil, List.append_nil,
    List.getD_cons_zero, List.getD_cons_succ]
  rw [distEval1, distEval2]
  rw [if_pos (by norm_num : (3 : ℝ) < 5), if_pos (by norm_num : (3 : ℝ) < 5)]
  rfl

lemma demo_not_intersect :
    ¬segmentsIntersect ⟨3 / 111320, 0⟩ ⟨3 / 111320, 1 / 111320⟩ ⟨0, 0⟩
      ⟨0, 1 / 111320⟩ := by
  unfold segmentsIntersect orientation
  rintro ⟨h1, -⟩
  norm_num at h1

lemma demo_segDist :
    segmentToSegmentDistance ⟨3 / 111320, 0⟩ ⟨3 / 111320, 1 / 111320⟩ ⟨0, 0⟩
      ⟨0, 1 / 111320⟩ = 3 := by
  unfold segmentToSegmentDistance
  rw [if_neg demo_not_intersect]
  rw [distEval1, distEval3, distEval2, distEval4]
  simp

lemma demo_claim_count :
    claimOffendingPairCount ruleWS
      ⟨SystemType.water, [⟨3 / 111320, 0⟩, ⟨3 / 111320, 1 / 111320⟩]⟩
      [⟨SystemType.sewerage, [⟨0, 0⟩, ⟨0, 1 / 111320⟩]⟩] = 1 := by
  unfold claimOffendingPairCount
  simp only [List.map_cons, List.map_nil, List.sum_cons, List.sum_nil]
  rw [if_neg (by decide : ¬(SystemType.sewerage = SystemType.water))]
  dsimp only
  rw [getMinDistance_ruleWS]
  rw [if_neg (by norm_num : ¬(5 : ℝ) = 0)]
  simp only [List.length_cons, List.length_nil, List.getD_cons_zero,
    List.getD_cons_succ, Nat.add_sub_cancel, Nat.zero_add]
  rw [show List.range 1 = [0] from rfl]
  simp only [List.map_cons, List.map_nil, List.sum_cons, List.sum_nil,
    List.getD_cons_zero, List.getD_cons_succ]
  simp only [demo_segDist]
  rw [if_pos (by norm_num : (3 : ℝ) < 5)]
  norm_num

/-- **C1, counterexample.** Two parallel one-segment routes (water candidate,
sewerage existing) 3 m apart under a 5 m rule form exactly one offending
segment pair in the claim's sense (their four-distance segment-to-segment
minimum is 3 < 5), yet the validator emits **two** violation messages for
it — one per direction of the start-point check — so the violation list does
not contain exactly one message per offending pair. -/
theorem validateTraceDistance_two_messages_per_pair :
    (validateTraceDistance ruleWS
        ⟨SystemType.water, [⟨3 / 111320, 0⟩, ⟨3 / 111320, 1 / 111320⟩]⟩
        [⟨SystemType.sewerage, [⟨0, 0⟩, ⟨0, 1 / 111320⟩]⟩]).errors.length = 2 ∧
    claimOffendingPairCount ruleWS
        ⟨SystemType.water, [⟨3 / 111320, 0⟩, ⟨3 / 111320, 1 / 111320⟩]⟩
        [⟨SystemType.sewerage, [⟨0, 0⟩, ⟨0, 1 / 111320⟩]⟩] = 1 ∧
    ¬((validateTraceDistance ruleWS
        ⟨SystemType.water, [⟨3 / 111320, 0⟩, ⟨3 / 111320, 1 / 111320⟩]⟩
        [⟨SystemType.sewerage, [⟨0, 0⟩, ⟨0, 1 / 111320⟩]⟩]).errors.length =
      claimOffendingPairCount ruleWS
        ⟨SystemType.water, [⟨3 / 111320, 0⟩, ⟨3 / 111320, 1 / 111320⟩]⟩
        [⟨SystemType.sewerage, [⟨0, 0⟩, ⟨0, 1 / 111320⟩]⟩]) := by
  refine ⟨demo_errors_length, demo_claim_count, ?_⟩
  rw [demo_errors_length, demo_claim_count]
  norm_num

/-! ## Claim C2: trace creation under validation failure -/

/-- **C2, amended.** Trace creation wraps the clearance check and the route
insertion in one transaction, but the insertion is unconditional: the
project's stored route set always grows by exactly the new route, and the
endpoint answers 400 ("Distance validation failed") precisely when the
validation errors are nonempty — carrying the already-inserted trace. -/
theorem createTrace_always_inserts (st : DBState) (pid : ℕ)
    (sys : SystemType) (path : List LatLng) (vd : Bool) :
    (createTrace st pid sys path vd).1.traces =
      st.traces ++ [⟨pid, sys, some path⟩] ∧
    (createTrace st pid sys path vd).1.rules = st.rules ∧
    (createTrace st pid sys path vd).2.1 = ⟨pid, sys, some path⟩ ∧
    ((createTraceEndpoint st pid sys path vd).2 = 400 ↔
      (createTrace st pid sys path vd).2.2 ≠ []) ∧
    (createTraceEndpoint st pid sys path vd).1 =
      (createTrace st pid sys path vd).1 := by
  refine ⟨rfl, rfl, rfl, ?_, rfl⟩
  unfold createTraceEndpoint
  dsimp only
  by_cases h : 0 < (createTrace st pid sys path vd).2.2.length
  · rw [if_pos h]
    simp only [true_iff]
    exact (List.length_pos.mp h)
  · rw [if_neg h]
    constructor
    · intro h400
      norm_num at h400
    · intro hne
      exact absurd (List.length_pos.mpr hne) h

/-- **C2, counterexample.** Creating a water trace 3 m from the stored
sewerage trace (5 m rule) is reported to the caller as a validation failure
(HTTP 400), yet the stored route set of the project is *not* unchanged: the
new route was inserted and committed. -/
theorem createTrace_inserts_despite_validation_failure :
    (createTraceEndpoint demoState 1 SystemType.water
        [⟨3 / 111320, 0⟩, ⟨3 / 111320, 1 / 111320⟩] true).2 = 400 ∧
    (createTraceEndpoint demoState 1 SystemType.water
        [⟨3 / 111320, 0⟩, ⟨3 / 111320, 1 / 111320⟩] true).1.traces ≠
      demoState.traces := by
  have herr : (createTrace demoState 1 SystemType.water
      [⟨3 / 111320, 0⟩, ⟨3 / 111320, 1 / 111320⟩] true).2.2.length = 2 := by
    unfold createTrace demoState
    dsimp only
    rw [if_pos rfl]
    exact demo_errors_length
  constructor
  · unfold createTraceEndpoint
    dsimp only
    rw [if_pos (by rw [herr]; norm_num)]
  · unfold createTraceEndpoint createTrace demoState
    dsimp only
    intro h
    have := congrArg List.length h
    simp at this

end PPV
